import Mathlib

/-!
Verification of the Assessment Session Engine of the voting/aptitude-testing
site against its design document. The embedding below translates the
TestRunner component (question resolution, answer store, countdown timer,
scoring, and attempt persistence) into Lean definitions. Firestore is
modelled as an in-memory list of attempt records to which addDoc appends;
React effect semantics are modelled by an explicit effect loop that re-runs
the timer effect while its dependency triple keeps changing.
-/

/-- The four question types of the source (field `type` of interface
Question): mcq-single, mcq-multiple, true-false, numeric. -/
inductive QType where
  | mcqSingle
  | mcqMultiple
  | trueFalse
  | numeric
deriving DecidableEq, Repr

/-- The dynamic value union of the source: answers and correct answers are
`number | number[] | boolean | string`. Numbers appearing here are option
indices (parseInt results), so Int; numeric-question payloads travel as
strings (the numeric Input stores e.target.value). -/
inductive AnsVal where
  | vnum (n : Int)
  | vlist (l : List Int)
  | vbool (b : Bool)
  | vstr (s : String)
deriving DecidableEq, Repr

/-- Interface Question of the source. The presentation-only fields
explanation, category, difficulty are kept as plain strings. -/
structure Question where
  id : String
  qtype : QType
  options : Option (List String)
  correctAnswer : AnsVal
  explanation : String
  category : String
  difficulty : String
deriving DecidableEq, Repr

/-- Interface UserAnswer of the source: `answer = null` means unanswered. -/
structure UserAnswer where
  questionId : String
  answer : Option AnsVal
  timeSpent : Nat
  flagged : Bool
deriving DecidableEq, Repr

/-- JavaScript strict equality (===) restricted to the value union above.
Values of different runtime type compare unequal; two arrays compare by
reference, and the arrays reaching the scoring comparisons are always
freshly constructed, hence unequal. -/
def jsStrictEq : AnsVal → AnsVal → Bool
  | .vnum a, .vnum b => a == b
  | .vbool a, .vbool b => a == b
  | .vstr a, .vstr b => a == b
  | _, _ => false

/-- Digits of the longest numeric prefix of a character list, with the rest. -/
def takeDigits : List Char → (List Nat × List Char)
  | [] => ([], [])
  | c :: cs =>
    if c.isDigit then
      let r := takeDigits cs
      ((c.toNat - 48) :: r.1, r.2)
    else ([], c :: cs)

/-- Fold a digit list into the Nat it denotes. -/
def digitsToNat (ds : List Nat) : Nat := ds.foldl (fun a d => 10 * a + d) 0

/-- A finite decimal: the value mant / 10 ^ frac. JavaScript numbers reached
by parseFloat on plain decimal numerals are modelled exactly in this form. -/
structure DecNum where
  mant : Int
  frac : Nat
deriving DecidableEq, Repr

/-- The rational value a DecNum denotes. -/
def ratOfDec (x : DecNum) : ℚ := (x.mant : ℚ) / (10 : ℚ) ^ x.frac

/-- Model of JavaScript parseFloat on plain decimal numerals (optional sign,
integer digits, optional fraction), returning the exact decimal value.
parseFloat accepts a leading numeric prefix and ignores trailing input;
a string with no leading digits at all gives NaN, modelled as none. -/
def parseFloatDec (s : String) : Option DecNum :=
  let cs := s.toList
  let signAndRest : Bool × List Char :=
    match cs with
    | '-' :: rest => (true, rest)
    | '+' :: rest => (false, rest)
    | _ => (false, cs)
  let ip := takeDigits signAndRest.2
  let fp : List Nat :=
    match ip.2 with
    | '.' :: rest => (takeDigits rest).1
    | _ => []
  if ip.1.isEmpty ∧ fp.isEmpty then none
  else
    let mag : Int := (digitsToNat ip.1 * 10 ^ fp.length + digitsToNat fp : Nat)
    some ⟨if signAndRest.1 then -mag else mag, fp.length⟩

/-- parseFloat applied to a union value: strings are parsed, numbers pass
through (parseFloat stringifies its argument first), booleans and the
arrays occurring here parse to NaN, modelled as none. -/
def numParse : AnsVal → Option DecNum
  | .vstr s => parseFloatDec s
  | .vnum n => some ⟨n, 0⟩
  | _ => none

/-- The tolerance test Math.abs(a - c) < 0.001 of the numeric branch,
computed exactly on the decimal representations: it holds the rational
inequality |a - c| < 1/1000, see numClose_iff below. -/
def numClose (a c : DecNum) : Bool :=
  decide (1000 * (a.mant * 10 ^ c.frac - c.mant * 10 ^ a.frac).natAbs < 10 ^ (a.frac + c.frac))

/-- The per-question correctness switch of calculateScore (source lines
251-269): mcq-single and true-false use ===; mcq-multiple compares array
lengths and requires every correct index to occur in the answer array;
numeric parses both sides and accepts a difference below 0.001 (a NaN on
either side makes the comparison false). -/
def isCorrect (q : Question) (ans : AnsVal) : Bool :=
  match q.qtype with
  | .mcqSingle => jsStrictEq ans q.correctAnswer
  | .mcqMultiple =>
    match q.correctAnswer, ans with
    | .vlist ca, .vlist ua => ca.length == ua.length && ca.all (fun a => ua.contains a)
    | _, _ => false
  | .trueFalse => jsStrictEq ans q.correctAnswer
  | .numeric =>
    match numParse ans, numParse q.correctAnswer with
    | some a, some c => numClose a c
    | _, _ => false

/-- Math.round((c / t) * 100) for 0 ≤ c ≤ t, computed exactly: JavaScript
Math.round is floor(x + 1/2) for nonnegative x, and
floor(100 * c / t + 1/2) = (200 * c + t) / (2 * t) in Nat division. -/
def jsRound100 (c t : Nat) : Nat := (200 * c + t) / (2 * t)

/-- calculateScore of the source (lines 242-275): walk the question list,
look the answer up by question id, skip missing or null answers (so they
never increment the correct counter but stay in the denominator), apply the
correctness switch, and round 100 * correct / total. -/
def calculateScore (questions : List Question) (userAnswers : List UserAnswer) : Nat :=
  let correctCount := questions.foldl (fun acc q =>
    match userAnswers.find? (fun ua => ua.questionId == q.id) with
    | none => acc
    | some ua =>
      match ua.answer with
      | none => acc
      | some a => if isCorrect q a then acc + 1 else acc) 0
  jsRound100 correctCount questions.length

/-- The per-question result the design document describes for the
ScoringEngine: every question of the list is graded, a missing or null
answer is scored incorrect and stays in the list (hence in the
denominator). -/
def perQuestionCorrect (questions : List Question) (userAnswers : List UserAnswer) : List Bool :=
  questions.map (fun q =>
    match userAnswers.find? (fun ua => ua.questionId == q.id) with
    | none => false
    | some ua =>
      match ua.answer with
      | none => false
      | some a => isCorrect q a)

/-- The score as the design document states it: round(100 * correctCount /
totalQuestions) with correctCount the number of true entries of
perQuestionCorrect. -/
def scoreSpec (questions : List Question) (userAnswers : List UserAnswer) : Nat :=
  jsRound100 ((perQuestionCorrect questions userAnswers).count true) questions.length

/-- updateAnswer of the source (lines 230-234): replace the stored value of
the matching question id, with no inspection of the question type and no
failure path. -/
def updateAnswer (answers : List UserAnswer) (questionId : String) (answer : AnsVal) :
    List UserAnswer :=
  answers.map (fun ua =>
    if ua.questionId == questionId then { ua with answer := some answer } else ua)

/-- JavaScript `x || d` for an optional number x: the default d is taken
when x is undefined, and also when x is 0, because 0 is falsy. -/
def jsOrDefault (x : Option Nat) (d : Nat) : Nat :=
  match x with
  | some p => if p = 0 then d else p
  | none => d

/-- The passed computation of the source (line 412):
score >= (test.passingScore || 70). -/
def passedCode (score : Nat) (passingScore : Option Nat) : Bool :=
  decide (score ≥ jsOrDefault passingScore 70)

/-- Status field of a testAttempts record. -/
inductive AttStatus where
  | inProgress
  | completed
deriving DecidableEq, Repr

/-- A testAttempts document as far as the session engine is concerned.
The remaining fields of the source records (timestamps, answers, score,
counters) do not affect record identity or the completed-uniqueness
invariant and are omitted. -/
structure AttemptRec where
  userId : String
  testId : String
  status : AttStatus
deriving DecidableEq, Repr

/-- The component state driving the timer effect, together with the
testAttempts collection; addDoc appends a record. -/
structure RunnerState where
  timeRemaining : Nat
  testSubmitted : Bool
  testStarted : Bool
  attempts : List AttemptRec
deriving DecidableEq, Repr

/-- handleSubmitTest of the source (lines 277-330): addDoc a NEW record
with status completed, then set testSubmitted. There is no guard against
being called while a submission is already in flight or finished. The
activity-log write and the toast are irrelevant here and omitted. -/
def handleSubmitTest (uid tid : String) (s : RunnerState) : RunnerState :=
  { s with
    attempts := s.attempts ++ [⟨uid, tid, AttStatus.completed⟩]
    testSubmitted := true }

/-- startTest of the source (lines 193-222): addDoc one record with status
in_progress, then set testStarted. -/
def startTest (uid tid : String) (s : RunnerState) : RunnerState :=
  { s with
    attempts := s.attempts ++ [⟨uid, tid, AttStatus.inProgress⟩]
    testStarted := true }

/-- One run of the timer useEffect body (source lines 90-99): while time
remains and the test is started but not submitted, decrement; when the
clock shows zero and the test is started — whether or not it was already
submitted — call handleSubmitTest. -/
def timerEffectStep (uid tid : String) (s : RunnerState) : RunnerState :=
  if 0 < s.timeRemaining ∧ s.testSubmitted = false ∧ s.testStarted = true then
    { s with timeRemaining := s.timeRemaining - 1 }
  else if s.timeRemaining = 0 ∧ s.testStarted = true then
    handleSubmitTest uid tid s
  else s

/-- The dependency triple of the timer effect:
[timeRemaining, testSubmitted, testStarted]. -/
def effectDeps (s : RunnerState) : Nat × Bool × Bool :=
  (s.timeRemaining, s.testSubmitted, s.testStarted)

/-- React semantics of the timer effect: the effect body runs, and runs
again whenever the state change it made altered the dependency triple
(setState to an identical value causes no re-render, so an unchanged
triple stops the loop). Fuel bounds the number of runs. -/
def effectLoop (uid tid : String) : Nat → RunnerState → RunnerState
  | 0, s => s
  | fuel + 1, s =>
    let t := timerEffectStep uid tid s
    if effectDeps t = effectDeps s then t else effectLoop uid tid fuel t

/-- How many completed attempts the collection holds for a (user, test)
pair. -/
def countCompleted (uid tid : String) (repo : List AttemptRec) : Nat :=
  (repo.filter (fun a =>
    a.userId == uid && a.testId == tid && a.status == AttStatus.completed)).length

/-- The completed-attempt query of fetchTestData (source lines 121-127):
attempts with matching userId, testId and status completed, tested for
being nonempty. -/
def hasCompleted (uid tid : String) (repo : List AttemptRec) : Bool :=
  decide (0 < countCompleted uid tid repo)

/-- Outcome of the pre-start gate of fetchTestData. -/
inductive FetchResult where
  | blocked
  | ready
deriving DecidableEq, Repr

/-- The already-completed gate of fetchTestData (source lines 120-137): if
the query returns any document, show the Test Already Completed toast and
navigate away (blocked); fetchTestData itself performs no write either
way, so the collection is returned unchanged. -/
def fetchGate (uid tid : String) (repo : List AttemptRec) : FetchResult × List AttemptRec :=
  if hasCompleted uid tid repo then (FetchResult.blocked, repo) else (FetchResult.ready, repo)

/-- Insertion of x into a list, each comparison consuming one coin of the
stream: a true coin plays the role of a negative comparator return (x stays
in front), a false coin sends x past the current head. Models one insertion
of an insertion sort whose comparator is () => Math.random() - 0.5. -/
def insertCoin (x : Nat) : List Nat → List Bool → (List Nat × List Bool)
  | [], coins => ([x], coins)
  | y :: ys, [] => (x :: y :: ys, [])
  | y :: ys, c :: coins =>
    if c then (x :: y :: ys, coins)
    else
      let r := insertCoin x ys coins
      (y :: r.1, r.2)

/-- Insertion sort driven by a stream of comparator coins: the model of
Array.prototype.sort under the random comparator of the source line 166,
questionsData.sort(() => Math.random() - 0.5), for the small arrays the
engines sort by insertion. -/
def sortCoins (l : List Nat) (coins : List Bool) : List Nat :=
  (l.foldl (fun acc x => insertCoin x acc.1 acc.2) (([] : List Nat), coins)).1

/-- All 8 equally likely comparator-coin streams of length three, enough to
sort three questions. -/
def allCoins3 : List (List Bool) :=
  [true, false].flatMap (fun a =>
    [true, false].flatMap (fun b =>
      [true, false].map (fun c => [a, b, c])))

/-- Number of the 8 equally likely coin streams under which the random
comparator sort of [0, 1, 2] produces the given permutation. -/
def countOutcome (perm : List Nat) : Nat :=
  (allCoins3.filter (fun cs => sortCoins [0, 1, 2] cs == perm)).length

/-- A multi-choice question with the given correct index list. -/
def mcqMultipleQuestion (ca : List Int) : Question :=
  ⟨"q", QType.mcqMultiple, none, AnsVal.vlist ca, "", "", ""⟩

/-- A numeric question whose correct answer is the given string. -/
def numericQuestion (cs : String) : Question :=
  ⟨"q", QType.numeric, none, AnsVal.vstr cs, "", "", ""⟩

/-- The five-question test of the design document: two single-choice, one
multi-choice, one boolean, one numeric. -/
def ex5Questions : List Question :=
  [⟨"q1", QType.mcqSingle, some ["a", "b", "c", "d"], AnsVal.vnum 2, "", "", ""⟩,
   ⟨"q2", QType.mcqSingle, some ["a", "b", "c", "d"], AnsVal.vnum 1, "", "", ""⟩,
   ⟨"q3", QType.mcqMultiple, some ["a", "b", "c", "d"], AnsVal.vlist [0, 2], "", "", ""⟩,
   ⟨"q4", QType.trueFalse, none, AnsVal.vbool true, "", "", ""⟩,
   ⟨"q5", QType.numeric, none, AnsVal.vstr "42", "", "", ""⟩]

/-- Answers with exactly three correct submissions: q1, q3 and q4 right,
q2 wrong, q5 left unanswered. -/
def ex5Answers : List UserAnswer :=
  [⟨"q1", some (AnsVal.vnum 2), 0, false⟩,
   ⟨"q2", some (AnsVal.vnum 0), 0, false⟩,
   ⟨"q3", some (AnsVal.vlist [0, 2]), 0, false⟩,
   ⟨"q4", some (AnsVal.vbool true), 0, false⟩,
   ⟨"q5", none, 0, false⟩]

/-- The integer tolerance test agrees with the rational statement
abs (a - c) < 1/1000 on the denoted values. -/
theorem numClose_iff (a c : DecNum) :
    numClose a c = true ↔ |ratOfDec a - ratOfDec c| < 1 / 1000 := by
  have h10a : (0 : ℚ) < 10 ^ a.frac := by positivity
  have h10c : (0 : ℚ) < 10 ^ c.frac := by positivity
  have hs : (0 : ℚ) < 10 ^ (a.frac + c.frac) := by positivity
  have key : ratOfDec a - ratOfDec c =
      ((a.mant * 10 ^ c.frac - c.mant * 10 ^ a.frac : ℤ) : ℚ) / (10 : ℚ) ^ (a.frac + c.frac) := by
    rw [ratOfDec, ratOfDec, pow_add]
    field_simp
    ring
  rw [numClose, decide_eq_true_iff, key, abs_div, abs_of_pos hs, div_lt_iff₀ hs,
    ← Nat.cast_lt (α := ℚ)]
  push_cast [Int.cast_natAbs]
  constructor <;> intro h <;> linarith

/-- The foldl of calculateScore counts exactly the questions that
perQuestionCorrect grades true, whatever the starting accumulator. -/
theorem scoring_foldl_count (uas : List UserAnswer) (qs : List Question) :
    ∀ n : Nat,
      qs.foldl (fun acc q =>
        match uas.find? (fun ua => ua.questionId == q.id) with
        | none => acc
        | some ua =>
          match ua.answer with
          | none => acc
          | some a => if isCorrect q a then acc + 1 else acc) n
      = n + (perQuestionCorrect qs uas).count true := by
  induction qs with
  | nil => intro n; simp [perQuestionCorrect]
  | cons q qs ih =>
    intro n
    have ih1 := ih n
    have ih2 := ih (n + 1)
    simp only [perQuestionCorrect] at ih1 ih2 ⊢
    simp only [List.foldl_cons, List.map_cons, List.count_cons]
    rcases hf : uas.find? (fun ua => ua.questionId == q.id) with _ | ua <;> simp only [hf]
    · simpa using ih1
    · rcases ha : ua.answer with _ | a <;> simp only [ha]
      · simpa using ih1
      · by_cases hc : isCorrect q a = true
        · simp only [hc]
          simp [ih2]
          omega
        · rw [Bool.not_eq_true] at hc
          simp only [hc]
          simpa using ih1

/-- C1: submission is NOT idempotent in the code. Starting an attempt with
two seconds on the clock and letting it run out, the timer effect submits
at zero, setting testSubmitted re-runs the effect, and its zero branch
(which never consults testSubmitted) submits again: the model performs two
completed writes for the attempt where the claim demands exactly one. -/
theorem timer_expiry_double_submit :
    countCompleted "u" "t"
      ((effectLoop "u" "t" 10 (startTest "u" "t" ⟨2, false, false, []⟩)).attempts) = 2 ∧
    (effectLoop "u" "t" 10 (startTest "u" "t" ⟨2, false, false, []⟩)).attempts =
      [⟨"u", "t", AttStatus.inProgress⟩, ⟨"u", "t", AttStatus.completed⟩,
       ⟨"u", "t", AttStatus.completed⟩] := by
  constructor <;> decide

/-- C2: on submission the code does not update the record created at start:
startTest appends one in_progress record and handleSubmitTest appends a
second, separate completed record, leaving the first in_progress forever. -/
theorem submit_creates_second_record :
    (handleSubmitTest "u" "t" (startTest "u" "t" ⟨120, false, false, []⟩)).attempts =
      [⟨"u", "t", AttStatus.inProgress⟩, ⟨"u", "t", AttStatus.completed⟩] := by
  decide

/-- C3 counterexample: after a session that legitimately passed the start
gate on an empty store, the timer double submission leaves the pair with a
completed attempt on record and yet TWO completed attempts, so the pair
violates the at-most-one-completed part of the claim. -/
theorem completed_uniqueness_violated :
    fetchGate "alice" "t1" [] = (FetchResult.ready, []) ∧
    hasCompleted "alice" "t1"
      ((effectLoop "alice" "t1" 10 (startTest "alice" "t1" ⟨2, false, false, []⟩)).attempts)
      = true ∧
    countCompleted "alice" "t1"
      ((effectLoop "alice" "t1" 10 (startTest "alice" "t1" ⟨2, false, false, []⟩)).attempts)
      = 2 := by
  refine ⟨by decide, by decide, by decide⟩

/-- C3 amended: when a completed attempt exists for the pair, the start
gate of fetchTestData blocks the session and writes nothing, so no new
Attempt record is created; the code does not, however, bound the number of
completed records a single session can write. -/
theorem blocked_start_no_write (uid tid : String) (repo : List AttemptRec)
    (h : hasCompleted uid tid repo = true) :
    fetchGate uid tid repo = (FetchResult.blocked, repo) := by
  simp [fetchGate, h]

/-- Witness for blocked_start_no_write at a store holding one completed
attempt for the pair. -/
theorem blocked_start_no_write_witness :
    hasCompleted "a" "t" [⟨"a", "t", AttStatus.completed⟩] = true ∧
    fetchGate "a" "t" [⟨"a", "t", AttStatus.completed⟩] =
      (FetchResult.blocked, [⟨"a", "t", AttStatus.completed⟩]) :=
  ⟨by decide, blocked_start_no_write "a" "t" [⟨"a", "t", AttStatus.completed⟩] (by decide)⟩

/-- C4: calculateScore equals the design scoring function, in which every
question is graded, an unanswered question counts as incorrect but stays in
the denominator, and the result is round(100 * correct / total); on the
five-question example with three correct answers the score is 60 and the
test is not passed at threshold 70. -/
theorem score_design_refinement :
    (∀ (qs : List Question) (uas : List UserAnswer),
        0 < qs.length → calculateScore qs uas = scoreSpec qs uas) ∧
    calculateScore ex5Questions ex5Answers = 60 ∧
    (perQuestionCorrect ex5Questions ex5Answers).count true = 3 ∧
    ex5Questions.length = 5 ∧
    passedCode (calculateScore ex5Questions ex5Answers) (some 70) = false := by
  refine ⟨fun qs uas _ => ?_, by decide, by decide, by decide, by decide⟩
  show calculateScore qs uas = scoreSpec qs uas
  rw [calculateScore, scoreSpec, scoring_foldl_count uas qs 0, Nat.zero_add]

/-- Witness for score_design_refinement instantiated at the five-question
example. -/
theorem score_design_refinement_witness :
    0 < ex5Questions.length ∧
    calculateScore ex5Questions ex5Answers = scoreSpec ex5Questions ex5Answers :=
  ⟨by decide, score_design_refinement.1 ex5Questions ex5Answers (by decide)⟩

/-- C5: for duplicate-free index lists (the form the checkbox UI maintains
and the only lists that denote sets), a multi-choice answer is scored
correct exactly when the answer index set and the correct index set have
equal cardinality and every correct index occurs in the answer. -/
theorem mcq_multiple_set_rule (ua ca : List Int) (h1 : ua.Nodup) (h2 : ca.Nodup) :
    isCorrect (mcqMultipleQuestion ca) (AnsVal.vlist ua) = true ↔
      ua.toFinset.card = ca.toFinset.card ∧ ∀ a ∈ ca, a ∈ ua := by
  simp only [isCorrect, mcqMultipleQuestion, Bool.and_eq_true, beq_iff_eq,
    List.all_eq_true, List.toFinset_card_of_nodup h1, List.toFinset_card_of_nodup h2]
  constructor
  · rintro ⟨hlen, hall⟩
    exact ⟨hlen.symm, fun a ha => by simpa using hall a ha⟩
  · rintro ⟨hlen, hall⟩
    exact ⟨hlen.symm, fun a ha => by simpa using hall a ha⟩

/-- Witness for mcq_multiple_set_rule at answer [0, 2] against correct
[0, 2]. -/
theorem mcq_multiple_set_rule_witness :
    ([0, 2] : List Int).Nodup ∧
    (isCorrect (mcqMultipleQuestion [0, 2]) (AnsVal.vlist [0, 2]) = true ↔
      ([0, 2] : List Int).toFinset.card = ([0, 2] : List Int).toFinset.card ∧
        ∀ a ∈ ([0, 2] : List Int), a ∈ ([0, 2] : List Int)) :=
  ⟨by decide, mcq_multiple_set_rule [0, 2] [0, 2] (by decide) (by decide)⟩

/-- C6: a numeric answer is scored correct exactly when both the answer
string and the correct-answer string parse as numbers and the denoted
values differ by less than 1/1000; against 42.0 the answer 42.0009 is in
tolerance and the answer 42.01 is not. -/
theorem numeric_tolerance_rule :
    (∀ as cs : String,
      isCorrect (numericQuestion cs) (AnsVal.vstr as) = true ↔
        ∃ a c : DecNum, parseFloatDec as = some a ∧ parseFloatDec cs = some c ∧
          |ratOfDec a - ratOfDec c| < 1 / 1000) ∧
    isCorrect (numericQuestion "42.0") (AnsVal.vstr "42.0009") = true ∧
    isCorrect (numericQuestion "42.0") (AnsVal.vstr "42.01") = false := by
  refine ⟨fun as cs => ?_, by decide, by decide⟩
  simp only [isCorrect, numericQuestion, numParse]
  rcases hp : parseFloatDec as with _ | a
  · simp [hp]
  · rcases hq : parseFloatDec cs with _ | c
    · simp [hq]
    · simpa [hp, hq] using numClose_iff a c

/-- C7 counterexample: with a defined passingScore of 0 and a score of 50
the claim demands passed = true (50 is at least 0), but the code computes
passed = false because 0 is falsy and the code substitutes the default 70. -/
theorem passing_score_zero_cex :
    ¬ (passedCode 50 (some 0) = true ↔ (50 : Nat) ≥ 0) := by
  decide

/-- C7 amended: passed is true exactly when score reaches the effective
threshold, and the default 70 applies when passingScore is undefined OR
defined as 0 (JavaScript treats 0 as falsy in the expression
passingScore || 70); for a defined nonzero passingScore the comparison uses
that value. -/
theorem passed_threshold_amended (score p : Nat) :
    (p ≠ 0 → (passedCode score (some p) = true ↔ score ≥ p)) ∧
    (passedCode score none = true ↔ score ≥ 70) ∧
    (passedCode score (some 0) = true ↔ score ≥ 70) := by
  refine ⟨fun hp => ?_, ?_, ?_⟩
  · simp [passedCode, jsOrDefault, hp]
  · simp [passedCode, jsOrDefault]
  · simp [passedCode, jsOrDefault]

/-- Witness for passed_threshold_amended at score 85 and passingScore 70. -/
theorem passed_threshold_amended_witness :
    (70 : Nat) ≠ 0 ∧ (passedCode 85 (some 70) = true ↔ (85 : Nat) ≥ 70) :=
  ⟨by decide, (passed_threshold_amended 85 70).1 (by decide)⟩

/-- C8: the shuffle of the source is the comparator-based random sort, and
it is biased: under the insertion-sort model with fair comparator coins,
the permutation [2, 1, 0] of three questions is produced by 2 of the 8
equally likely coin streams while [0, 1, 2] is produced by only 1, so the
distribution over permutations is not uniform. -/
theorem random_comparator_sort_biased :
    countOutcome [2, 1, 0] = 2 ∧ countOutcome [0, 1, 2] = 1 ∧
    allCoins3.length = 8 ∧ countOutcome [2, 1, 0] ≠ countOutcome [0, 1, 2] := by
  refine ⟨by decide, by decide, by decide, by decide⟩

/-- C9: updateAnswer performs no tag validation: storing a boolean value
for a question of numeric type succeeds silently and the mismatched value
is kept in the answer store, where the claim demands a TypeMismatch
failure. -/
theorem updateAnswer_no_validation :
    updateAnswer [⟨"q1", none, 0, false⟩] "q1" (AnsVal.vbool true) =
      [⟨"q1", some (AnsVal.vbool true), 0, false⟩] ∧
    (numericQuestion "42").qtype = QType.numeric ∧
    isCorrect (numericQuestion "42") (AnsVal.vbool true) = false := by
  refine ⟨by decide, by decide, by decide⟩

/-- C10: numeric scoring is total over arbitrary answer strings: any
stored string that does not parse as a number (the empty string, for one)
makes the tolerance comparison false and the question is scored incorrect,
with no failure path. -/
theorem numeric_unparseable_scored_incorrect (s cs : String)
    (h : parseFloatDec s = none) :
    isCorrect (numericQuestion cs) (AnsVal.vstr s) = false := by
  simp [isCorrect, numericQuestion, numParse, h]

/-- Witness for numeric_unparseable_scored_incorrect at the empty string
left after clearing the numeric input. -/
theorem numeric_unparseable_scored_incorrect_witness :
    parseFloatDec "" = none ∧
    isCorrect (numericQuestion "42.0") (AnsVal.vstr "") = false :=
  ⟨by decide, numeric_unparseable_scored_incorrect "" "42.0" (by decide)⟩
